import Mathlib

/-!
Shallow embedding of the oncall authentication and authorization module
(oncall/auth/__init__.py) and proofs of the specified properties.

Modelling conventions:
* Python dict/context access is modelled with Option fields; a KeyError
  that the source code leaves uncaught appears as an explicit error value.
* Database tables are association lists; the SQL queries of the source are
  transcribed as filters/counts over those lists.  The join of membership
  tables through the user table (id to name) is collapsed by keying the
  membership rows directly by user name, which is faithful because user
  names are unique in the store.
* HMAC-SHA512 plus base64url is an opaque parameter (key and text in,
  printable digest out); the module only composes it and compares outputs,
  it never inspects the digest internally.
* Each database-backed function also returns the number of SQL queries it
  executed, so that claims about cache hits and short-circuiting are
  statable.
-/

set_option autoImplicit false

namespace Oncall

/-- Error outcomes of the auth module: HTTPUnauthorized carries a title, a
description and a challenges string (always empty in this module);
HTTPForbidden carries a title and a description; an uncaught Python
KeyError is modelled explicitly. -/
inductive AuthErr where
  | unauthorized (title description challenges : String)
  | forbidden (title description : String)
  | keyError
  deriving DecidableEq

/-- Result of a fallible operation: either a value or a raised error. -/
inductive Res (α : Type) where
  | ok (a : α)
  | err (e : AuthErr)
  deriving DecidableEq

/-- Model of the mutable request context dict (req.context).  The auth
module reads or writes the keys user, app and body; the body key is set by
upstream middleware before authentication runs, so it is modelled as
always present. -/
structure ReqCtx where
  user : Option String
  app : Option String
  body : String
  deriving DecidableEq

/-- Model of the beaker session dict: the module reads the keys user and
_id, either of which may be absent. -/
structure Session where
  user : Option String
  sid : Option String
  deriving DecidableEq

/-- Model of a falcon request as seen by this module: method, PATH_INFO,
QUERY_STRING, the AUTHORIZATION and X-CSRF-TOKEN headers (absent headers
are none), the beaker session and the request context. -/
structure Request where
  method : String
  pathInfo : String
  queryString : String
  authHeader : Option String
  csrfHeader : Option String
  session : Session
  ctx : ReqCtx
  deriving DecidableEq

/-- Relational state read by the module: user rows (name, god flag), team
rows (id, name), team_user rows (team id, member name), team_admin rows
(team id, admin name), application rows (name, key) and session rows
(session id, csrf token). -/
structure DB where
  users : List (String × Bool)
  teams : List (Nat × String)
  teamUser : List (Nat × String)
  teamAdmin : List (Nat × String)
  applications : List (String × String)
  sessions : List (String × String)
  deriving DecidableEq

/-- Process-wide application key cache (app_key_cache), an association
list from application name to key; lookup finds the most recent entry. -/
abbrev Cache := List (String × String)

/-- Transcription of is_god: count the user rows with the god flag and the
challenger name; the caller is god when the rowcount is nonzero. -/
def is_god (db : DB) (challenger : String) : Bool :=
  (db.users.countP (fun u => u.1 == challenger && u.2 == true)) != 0

/-- Result set membership of the query of check_user_auth: user belongs to
some team that the challenger administers (team_admin joined to team_user
on team id). -/
def user_auth_allowed (db : DB) (challenger user : String) : Bool :=
  db.teamAdmin.any (fun ta =>
    ta.2 == challenger && db.teamUser.any (fun tu => tu.1 == ta.1 && tu.2 == user))

/-- Result set membership of the query of check_team_auth: the named team
is one whose admins include the challenger. -/
def team_admin_allowed (db : DB) (challenger team : String) : Bool :=
  db.teams.any (fun t =>
    t.2 == team && db.teamAdmin.any (fun ta => ta.1 == t.1 && ta.2 == challenger))

/-- Rowcount of the query of check_calendar_auth: team_user rows whose
team id is the id of the named team (scalar subquery) and whose member is
the challenger. -/
def team_member_rowcount (db : DB) (team challenger : String) : Nat :=
  match db.teams.find? (fun t => t.2 == team) with
  | none => 0
  | some t => db.teamUser.countP (fun tu => tu.1 == t.1 && tu.2 == challenger)

/-- Rowcount of the query of check_calendar_auth_by_id. -/
def team_member_rowcount_by_id (db : DB) (teamId : Nat) (challenger : String) : Nat :=
  db.teamUser.countP (fun tu => tu.1 == teamId && tu.2 == challenger)

/-- Transcription of check_user_auth.  The second component counts the SQL
queries executed (the membership query, then is_god only when the
membership query did not allow). -/
def check_user_auth (db : DB) (user : String) (req : Request) : Res Unit × Nat :=
  if req.ctx.app.isSome then (.ok (), 0)
  else
    match req.ctx.user with
    | none => (.err .keyError, 0)
    | some challenger =>
      if user == challenger then (.ok (), 0)
      else if user_auth_allowed db challenger user then (.ok (), 1)
      else if is_god db challenger then (.ok (), 2)
      else (.err (.forbidden "Unauthorized"
        ("Action not allowed for \"" ++ challenger ++ "\"")), 2)

/-- Transcription of check_team_auth. -/
def check_team_auth (db : DB) (team : String) (req : Request) : Res Unit × Nat :=
  if req.ctx.app.isSome then (.ok (), 0)
  else
    match req.ctx.user with
    | none => (.err .keyError, 0)
    | some challenger =>
      if team_admin_allowed db challenger team then (.ok (), 1)
      else if is_god db challenger then (.ok (), 2)
      else (.err (.forbidden "Unauthorized"
        ("Action not allowed: \"" ++ challenger ++ "\" is not an admin for \""
          ++ team ++ "\"")), 2)

/-- Transcription of check_calendar_auth: the challenger is the explicit
user argument when given, else the context user. -/
def check_calendar_auth (db : DB) (team : String) (req : Request)
    (user : Option String) : Res Unit × Nat :=
  if req.ctx.app.isSome then (.ok (), 0)
  else
    match (match user with | some u => some u | none => req.ctx.user) with
    | none => (.err .keyError, 0)
    | some challenger =>
      if team_member_rowcount db team challenger != 0 then (.ok (), 1)
      else if is_god db challenger then (.ok (), 2)
      else (.err (.forbidden "Unauthorized"
        ("Action not allowed: \"" ++ challenger ++ "\" is not part of \""
          ++ team ++ "\"")), 2)

/-- Transcription of check_calendar_auth_by_id. -/
def check_calendar_auth_by_id (db : DB) (teamId : Nat) (req : Request) :
    Res Unit × Nat :=
  if req.ctx.app.isSome then (.ok (), 0)
  else
    match req.ctx.user with
    | none => (.err .keyError, 0)
    | some challenger =>
      if team_member_rowcount_by_id db teamId challenger != 0 then (.ok (), 1)
      else if is_god db challenger then (.ok (), 2)
      else (.err (.forbidden "Unauthorized"
        ("Action not allowed: \"" ++ challenger ++ "\" is not a team member")), 2)

/-- Digest input text of is_client_digest_valid: the Python format string
of window, method, path and body separated by single spaces. -/
def signText (window : Int) (method path body : String) : String :=
  toString window ++ " " ++ method ++ " " ++ path ++ " " ++ body

/-- Transcription of is_client_digest_valid, parametrized by the opaque
digest function hmacB64 (api key and text to base64url HMAC-SHA512). -/
def is_client_digest_valid (hmacB64 : String → String → String)
    (client_digest api_key : String) (window : Int)
    (method path body : String) : Bool :=
  let text := signText window method path body
  let digest := hmacB64 api_key text
  if client_digest == digest then true else false

/-- Canonical path of authenticate_application: PATH_INFO, with a question
mark and the query string appended when the query string is nonempty
(Python truthiness of QUERY_STRING). -/
def canonicalPath (req : Request) : String :=
  if req.queryString != "" then req.pathInfo ++ "?" ++ req.queryString
  else req.pathInfo

/-- Model of the Python split at the first colon whose result is unpacked
into two names: none when no colon occurs, mirroring the ValueError the
unpacking raises in that case. -/
def splitColon1 : List Char → Option (List Char × List Char)
  | [] => none
  | c :: cs =>
    if c = ':' then some ([], cs)
    else
      match splitColon1 cs with
      | none => none
      | some p => some (c :: p.1, p.2)

/-- SQL query of authenticate_application on the application table: first
row with the given name, projected to the key column. -/
def app_key_query (db : DB) (name : String) : Option String :=
  ((db.applications.filter (fun row => row.1 == name)).head?).map (fun row => row.2)

/-- Output of authenticate_application: the raised error or the updated
request context, together with the application key cache after the call
and the number of application-table queries executed. -/
structure AppAuthOut where
  result : Res ReqCtx
  cache : Cache
  appLookups : Nat
  deriving DecidableEq

/-- Window acceptance logic of authenticate_application once the api key
is resolved: accept the digest at the current window now / 5 or at the
immediately prior window, else raise Wrong digest. -/
def digest_check (hmacB64 : String → String → String)
    (client_digest api_key : String) (now : Nat)
    (method path body app_name : String) (ctx : ReqCtx) : Res ReqCtx :=
  let window : Int := Int.ofNat (now / 5)
  if is_client_digest_valid hmacB64 client_digest api_key window method path body then
    .ok { ctx with app := some app_name }
  else if is_client_digest_valid hmacB64 client_digest api_key (window - 1) method path body then
    .ok { ctx with app := some app_name }
  else .err (.unauthorized "Authentication failure" "Wrong digest" "")

/-- Key resolution and digest verification of authenticate_application,
factored out at the point just after the token has been parsed into
application name and client digest: the api key comes from the cache, or
from one application-table query whose miss raises Application not found
without touching the cache. -/
def resolve_and_check (hmacB64 : String → String → String) (db : DB)
    (cache : Cache) (now : Nat) (app_name client_digest : String)
    (req : Request) : AppAuthOut :=
  match cache.lookup app_name with
  | some key =>
    { result := digest_check hmacB64 client_digest key now req.method
        (canonicalPath req) req.ctx.body app_name req.ctx,
      cache := cache, appLookups := 0 }
  | none =>
    match app_key_query db app_name with
    | some key =>
      { result := digest_check hmacB64 client_digest key now req.method
          (canonicalPath req) req.ctx.body app_name req.ctx,
        cache := (app_name, key) :: cache, appLookups := 1 }
    | none =>
      { result := .err (.unauthorized "Authentication failure" "Application not found" ""),
        cache := cache, appLookups := 1 }

/-- Transcription of authenticate_application.  The token must carry the
literal prefix of four letters h m a c and a space; the remainder splits
at the first colon into application name and client digest (a missing
colon raises ValueError, caught as Wrong digest); the rest of the work is
resolve_and_check. -/
def authenticate_application (hmacB64 : String → String → String) (db : DB)
    (cache : Cache) (now : Nat) (auth_token : String) (req : Request) : AppAuthOut :=
  if "hmac ".data.isPrefixOf auth_token.data then
    match splitColon1 (auth_token.data.drop 5) with
    | none =>
      { result := .err (.unauthorized "Authentication failure" "Wrong digest" ""),
        cache := cache, appLookups := 0 }
    | some p =>
      resolve_and_check hmacB64 db cache now (String.mk p.1) (String.mk p.2) req
  else
    { result := .err (.unauthorized "Authentication failure" "Invalid digest format" ""),
      cache := cache, appLookups := 0 }

/-- Transcription of _authenticate_user.  Reading a missing user or _id
key raises KeyError, which the function catches and turns into the logged
in error; the session-table rowcount must be exactly one; the CSRF header
must equal the stored token (an absent header compares unequal to every
token, as None does in Python). -/
def authenticate_user (db : DB) (req : Request) : Res ReqCtx :=
  match req.session.user with
  | none => .err (.unauthorized "Unauthorized" "User must be logged in" "")
  | some u =>
    let ctx2 := { req.ctx with user := some u }
    match req.session.sid with
    | none => .err (.unauthorized "Unauthorized" "User must be logged in" "")
    | some sid =>
      let rows := db.sessions.filter (fun r => r.1 == sid)
      if rows.length != 1 then .err (.unauthorized "Invalid Session" "CSRF token missing" "")
      else
        let token := (rows.headD ("", "")).2
        if ¬ (req.csrfHeader == some token) then
          .err (.unauthorized "Invalid Session" "CSRF validation failed" "")
        else .ok ctx2

/-- Transcription of the login_required wrapper: a truthy AUTHORIZATION
header (present and nonempty) routes to authenticate_application, any
other routes to authenticate_user.  The user path executes no
application-table query and leaves the cache unchanged. -/
def login_required (hmacB64 : String → String → String) (db : DB)
    (cache : Cache) (now : Nat) (req : Request) : AppAuthOut :=
  match req.authHeader with
  | none => { result := authenticate_user db req, cache := cache, appLookups := 0 }
  | some tok =>
    if tok == "" then
      { result := authenticate_user db req, cache := cache, appLookups := 0 }
    else authenticate_application hmacB64 db cache now tok req

/-- Shape of a result, forgetting the context value: used to state that
two verifications succeed or fail identically. -/
def resShape (r : Res ReqCtx) : Res Unit :=
  match r with
  | .ok _ => .ok ()
  | .err e => .err e

/-- Transcription of the words of the spec for the digest input string
(refinement side of claim C6): window, HTTP method, path with query and
raw body, separated by single spaces. -/
def spec_digest_text (window : Int) (method pathWithQuery body : String) : String :=
  toString window ++ " " ++ method ++ " " ++ pathWithQuery ++ " " ++ body

/-- Transcription of the words of the spec for the canonical path
(refinement side of claim C6): the path when the query string is empty,
else the path, a question mark and the query string. -/
def spec_canonical_path (path qs : String) : String :=
  if qs = "" then path else path ++ "?" ++ qs

/-! Helper lemmas about token parsing. -/

theorem string_mk_data (s : String) : String.mk s.data = s := rfl

theorem data_hmac_append (rest : String) :
    ("hmac " ++ rest).data = "hmac ".data ++ rest.data :=
  String.data_append _ _

theorem hmac_isPrefixOf_append (rest : String) :
    "hmac ".data.isPrefixOf (("hmac " ++ rest).data) = true := by
  rw [data_hmac_append, List.isPrefixOf_iff_prefix]
  exact List.prefix_append _ _

theorem drop5_hmac_append (rest : String) :
    (("hmac " ++ rest).data).drop 5 = rest.data := by
  have h5 : ("hmac ".data).length = 5 := rfl
  rw [data_hmac_append, ← h5]
  exact List.drop_left _ _

theorem splitColon1_append (a b : List Char) (h : ':' ∉ a) :
    splitColon1 (a ++ ':' :: b) = some (a, b) := by
  induction a with
  | nil => simp [splitColon1]
  | cons c cs ih =>
    have hc : ¬ c = ':' := by
      intro hcol
      exact h (by rw [hcol]; exact List.mem_cons_self ':' cs)
    have hcs : ':' ∉ cs := fun hm => h (List.mem_cons_of_mem c hm)
    simp [splitColon1, hc, ih hcs]

theorem data_colon_append (a b : String) :
    ((a ++ ":" ++ b).data) = a.data ++ ':' :: b.data := by
  rw [String.data_append, String.data_append]
  simp

theorem is_client_digest_valid_self (hmacB64 : String → String → String)
    (api_key : String) (window : Int) (method path body : String) :
    is_client_digest_valid hmacB64
      (hmacB64 api_key (signText window method path body))
      api_key window method path body = true := by
  simp [is_client_digest_valid]

theorem is_client_digest_valid_ne (hmacB64 : String → String → String)
    (cd api_key : String) (window : Int) (method path body : String)
    (h : hmacB64 api_key (signText window method path body) ≠ cd) :
    is_client_digest_valid hmacB64 cd api_key window method path body = false := by
  simp [is_client_digest_valid]
  exact fun hcd => absurd hcd.symm h

theorem authenticate_application_wellformed
    (hmacB64 : String → String → String) (db : DB) (cache : Cache)
    (now : Nat) (appName cd : String) (req : Request)
    (hname : ':' ∉ appName.data) :
    authenticate_application hmacB64 db cache now
        ("hmac " ++ (appName ++ ":" ++ cd)) req =
      resolve_and_check hmacB64 db cache now appName cd req := by
  have hsplit : ∀ b, splitColon1 (appName.data ++ ':' :: b) = some (appName.data, b) :=
    fun b => splitColon1_append _ b hname
  have hpre : (['h', 'm', 'a', 'c', ' '].isPrefixOf
      (("hmac " ++ (appName ++ ":" ++ cd)).data)) = true :=
    hmac_isPrefixOf_append _
  simp only [authenticate_application, hpre, if_true,
    drop5_hmac_append, data_colon_append, hsplit, string_mk_data]

theorem digest_check_at_window (hmacB64 : String → String → String)
    (key : String) (now : Nat) (method path body appName : String)
    (ctx : ReqCtx) (w : Nat) (hw : now / 5 = w ∨ now / 5 = w + 1) :
    digest_check hmacB64 (hmacB64 key (signText (Int.ofNat w) method path body))
      key now method path body appName ctx = .ok { ctx with app := some appName } := by
  rcases hw with h | h
  · simp only [digest_check, h]
    rw [if_pos (is_client_digest_valid_self hmacB64 key (Int.ofNat w) method path body)]
  · simp only [digest_check, h]
    by_cases hfst : is_client_digest_valid hmacB64
      (hmacB64 key (signText (Int.ofNat w) method path body)) key
      (Int.ofNat (w + 1)) method path body = true
    · rw [if_pos hfst]
    · rw [if_neg hfst]
      have hm1 : Int.ofNat (w + 1) - 1 = Int.ofNat w := by
        simp [Int.ofNat_eq_coe]
      rw [hm1, if_pos (is_client_digest_valid_self hmacB64 key (Int.ofNat w) method path body)]

theorem digest_check_reject (hmacB64 : String → String → String)
    (cd key : String) (now : Nat) (method path body appName : String)
    (ctx : ReqCtx)
    (h1 : hmacB64 key (signText (Int.ofNat (now / 5)) method path body) ≠ cd)
    (h2 : hmacB64 key (signText (Int.ofNat (now / 5) - 1) method path body) ≠ cd) :
    digest_check hmacB64 cd key now method path body appName ctx =
      .err (.unauthorized "Authentication failure" "Wrong digest" "") := by
  simp only [digest_check]
  rw [is_client_digest_valid_ne _ _ _ _ _ _ _ h1,
    is_client_digest_valid_ne _ _ _ _ _ _ _ h2]
  simp

/-! Concrete fixtures used by the witness theorems. -/

/-- Toy digest function standing in for HMAC-SHA512 plus base64url in the
concrete witnesses; it is collision-free on the inputs the witnesses use. -/
def toyHmac (key text : String) : String := key ++ "#" ++ text

/-- Concrete request fixture. -/
def toyReq : Request :=
  { method := "GET", pathInfo := "/widgets/42", queryString := "",
    authHeader := none, csrfHeader := none,
    session := { user := none, sid := none },
    ctx := { user := none, app := none, body := "" } }

/-- Concrete database fixture: gamma is a god user; alice is a member but
not an admin of team sre; bob is its admin; one application and one
session row are registered. -/
def toyDb : DB :=
  { users := [("gamma", true), ("alice", false), ("bob", false)],
    teams := [(1, "sre")],
    teamUser := [(1, "alice"), (1, "bob")],
    teamAdmin := [(1, "bob")],
    applications := [("svc", "K")],
    sessions := [("sid1", "tok1")] }

/-- C1: a digest computed at window w for a registered application (in the
key cache or in the application table) is accepted whenever the server
window now / 5 equals w or w + 1, marking the context with the application
identity, and is rejected as Wrong digest at window w + 2 or later,
provided the digests of the distinct windows involved do not collide
(which is the premise the real HMAC-SHA512 provides). -/
theorem digest_window_acceptance
    (hmacB64 : String → String → String) (db : DB) (cache : Cache)
    (now w : Nat) (appName key cpath clientDigest token : String) (req : Request)
    (hname : ':' ∉ appName.data)
    (hkey : cache.lookup appName = some key ∨
      (cache.lookup appName = none ∧ app_key_query db appName = some key))
    (hcp : cpath = canonicalPath req)
    (hcd : clientDigest = hmacB64 key (signText (Int.ofNat w) req.method cpath req.ctx.body))
    (htok : token = "hmac " ++ (appName ++ ":" ++ clientDigest)) :
    ((now / 5 = w ∨ now / 5 = w + 1) →
      (authenticate_application hmacB64 db cache now token req).result =
        .ok { req.ctx with app := some appName }) ∧
    (w + 2 ≤ now / 5 →
      hmacB64 key (signText (Int.ofNat (now / 5)) req.method cpath req.ctx.body) ≠ clientDigest →
      hmacB64 key (signText (Int.ofNat (now / 5) - 1) req.method cpath req.ctx.body) ≠ clientDigest →
      (authenticate_application hmacB64 db cache now token req).result =
        .err (.unauthorized "Authentication failure" "Wrong digest" "")) := by
  subst hcp hcd htok
  have hred := authenticate_application_wellformed hmacB64 db cache now appName
    (hmacB64 key (signText (Int.ofNat w) req.method (canonicalPath req) req.ctx.body))
    req hname
  constructor
  · intro hw
    rw [hred]
    unfold resolve_and_check
    rcases hkey with h | ⟨h1, h2⟩
    · rw [h]
      exact digest_check_at_window hmacB64 key now req.method (canonicalPath req)
        req.ctx.body appName req.ctx w hw
    · rw [h1, h2]
      exact digest_check_at_window hmacB64 key now req.method (canonicalPath req)
        req.ctx.body appName req.ctx w hw
  · intro _ h1d h2d
    rw [hred]
    unfold resolve_and_check
    rcases hkey with h | ⟨h1, h2⟩
    · rw [h]
      exact digest_check_reject hmacB64 _ key now req.method (canonicalPath req)
        req.ctx.body appName req.ctx h1d h2d
    · rw [h1, h2]
      exact digest_check_reject hmacB64 _ key now req.method (canonicalPath req)
        req.ctx.body appName req.ctx h1d h2d

/-- Witness for C1: application svc with key K, GET /widgets/42, empty
body, signed at window 20; accepted at unix time 100 (window 20) and
rejected as Wrong digest at unix time 110 (window 22). -/
theorem digest_window_acceptance_witness :
    (':' ∉ "svc".data) ∧
    (authenticate_application toyHmac toyDb [("svc", "K")] 100
        ("hmac " ++ ("svc" ++ ":" ++
          toyHmac "K" (signText (Int.ofNat 20) toyReq.method "/widgets/42" toyReq.ctx.body)))
        toyReq).result =
      .ok { toyReq.ctx with app := some "svc" } ∧
    (authenticate_application toyHmac toyDb [("svc", "K")] 110
        ("hmac " ++ ("svc" ++ ":" ++
          toyHmac "K" (signText (Int.ofNat 20) toyReq.method "/widgets/42" toyReq.ctx.body)))
        toyReq).result =
      .err (.unauthorized "Authentication failure" "Wrong digest" "") := by
  refine ⟨by decide, ?_, ?_⟩
  · exact (digest_window_acceptance toyHmac toyDb [("svc", "K")] 100 20 "svc" "K"
      "/widgets/42" _ _ toyReq (by decide) (Or.inl (by decide)) (by decide) rfl rfl).1
      (by decide)
  · exact (digest_window_acceptance toyHmac toyDb [("svc", "K")] 110 20 "svc" "K"
      "/widgets/42" _ _ toyReq (by decide) (Or.inl (by decide)) (by decide) rfl rfl).2
      (by decide) (by decide) (by decide)

/-- Counterexample to C2 as stated: the header hmac-space-nocolon carries
the prefix but no colon separator, and authenticate_application rejects it
as Wrong digest, not as Invalid digest format. -/
theorem missing_separator_not_invalid_format :
    (authenticate_application toyHmac toyDb [] 0 "hmac nocolon" toyReq).result =
      .err (.unauthorized "Authentication failure" "Wrong digest" "") ∧
    (authenticate_application toyHmac toyDb [] 0 "hmac nocolon" toyReq).result ≠
      .err (.unauthorized "Authentication failure" "Invalid digest format" "") := by
  refine ⟨by decide, by decide⟩

/-- C2 (amended): a header without the literal hmac-space prefix fails as
Invalid digest format; a header with the prefix whose remainder has no
colon separator raises ValueError at tuple unpacking, which the code
catches and reports as Wrong digest. -/
theorem malformed_header_errors
    (hmacB64 : String → String → String) (db : DB) (cache : Cache)
    (now : Nat) (token : String) (req : Request) :
    (("hmac ".data.isPrefixOf token.data) = false →
      (authenticate_application hmacB64 db cache now token req).result =
        .err (.unauthorized "Authentication failure" "Invalid digest format" "")) ∧
    (("hmac ".data.isPrefixOf token.data) = true →
      splitColon1 (token.data.drop 5) = none →
      (authenticate_application hmacB64 db cache now token req).result =
        .err (.unauthorized "Authentication failure" "Wrong digest" "")) := by
  constructor
  · intro h
    have h2 : (['h', 'm', 'a', 'c', ' '].isPrefixOf token.data) = false := h
    simp [authenticate_application, h2]
  · intro h hs
    have h2 : (['h', 'm', 'a', 'c', ' '].isPrefixOf token.data) = true := h
    simp [authenticate_application, h2, hs]

/-- Witness for C2 (amended): a Bearer header fails as Invalid digest
format; the header hmac-space-nocolon fails as Wrong digest. -/
theorem malformed_header_errors_witness :
    (("hmac ".data.isPrefixOf "Bearer x".data) = false) ∧
    (authenticate_application toyHmac toyDb [] 0 "Bearer x" toyReq).result =
      .err (.unauthorized "Authentication failure" "Invalid digest format" "") ∧
    (authenticate_application toyHmac toyDb [] 0 "hmac nosep" toyReq).result =
      .err (.unauthorized "Authentication failure" "Wrong digest" "") := by
  refine ⟨by decide, ?_, ?_⟩
  · exact (malformed_header_errors toyHmac toyDb [] 0 "Bearer x" toyReq).1 (by decide)
  · exact (malformed_header_errors toyHmac toyDb [] 0 "hmac nosep" toyReq).2
      (by decide) (by decide)

/-- Concrete request fixture whose context carries an application
identity. -/
def toyReqApp : Request :=
  { toyReq with ctx := { user := none, app := some "svc", body := "" } }

/-- C3: once the request context carries the app key, each of the four
authorization checks succeeds immediately with zero database queries, for
every database and every target argument. -/
theorem app_bypasses_authorization
    (db : DB) (user team : String) (teamId : Nat) (uopt : Option String)
    (req : Request) (a : String) (h : req.ctx.app = some a) :
    check_user_auth db user req = (.ok (), 0) ∧
    check_team_auth db team req = (.ok (), 0) ∧
    check_calendar_auth db team req uopt = (.ok (), 0) ∧
    check_calendar_auth_by_id db teamId req = (.ok (), 0) := by
  refine ⟨?_, ?_, ?_, ?_⟩ <;>
    simp [check_user_auth, check_team_auth, check_calendar_auth,
      check_calendar_auth_by_id, h]

/-- Witness for C3 at a concrete application-authenticated request. -/
theorem app_bypasses_authorization_witness :
    toyReqApp.ctx.app = some "svc" ∧
    check_user_auth toyDb "alice" toyReqApp = (.ok (), 0) ∧
    check_team_auth toyDb "sre" toyReqApp = (.ok (), 0) ∧
    check_calendar_auth toyDb "sre" toyReqApp none = (.ok (), 0) ∧
    check_calendar_auth_by_id toyDb 1 toyReqApp = (.ok (), 0) := by
  have h := app_bypasses_authorization toyDb "alice" "sre" 1 none toyReqApp "svc" rfl
  exact ⟨rfl, h.1, h.2.1, h.2.2.1, h.2.2.2⟩

/-! Characterizations of the four authorization checks as disjunctions of
the app bypass, the specific condition and the god override. -/

theorem check_user_auth_ok_iff (db : DB) (user : String) (req : Request)
    (challenger : String) (hu : req.ctx.user = some challenger) :
    (check_user_auth db user req).1 = .ok () ↔
      (req.ctx.app.isSome = true ∨ user = challenger ∨
        user_auth_allowed db challenger user = true ∨
        is_god db challenger = true) := by
  unfold check_user_auth
  cases happ : req.ctx.app.isSome
  · simp only [happ, Bool.false_eq_true, if_false, hu]
    split_ifs with h1 h2 h3 <;> simp_all
  · simp [happ]

theorem check_team_auth_ok_iff (db : DB) (team : String) (req : Request)
    (challenger : String) (hu : req.ctx.user = some challenger) :
    (check_team_auth db team req).1 = .ok () ↔
      (req.ctx.app.isSome = true ∨
        team_admin_allowed db challenger team = true ∨
        is_god db challenger = true) := by
  unfold check_team_auth
  cases happ : req.ctx.app.isSome
  · simp only [happ, Bool.false_eq_true, if_false, hu]
    split_ifs with h1 h2 <;> simp_all
  · simp [happ]

theorem check_calendar_auth_ok_iff (db : DB) (team : String) (req : Request)
    (uopt : Option String) (challenger : String)
    (hc : (match uopt with | some u => some u | none => req.ctx.user) = some challenger) :
    (check_calendar_auth db team req uopt).1 = .ok () ↔
      (req.ctx.app.isSome = true ∨
        team_member_rowcount db team challenger ≠ 0 ∨
        is_god db challenger = true) := by
  unfold check_calendar_auth
  cases happ : req.ctx.app.isSome
  · simp only [happ, Bool.false_eq_true, if_false, hc]
    split_ifs with h1 h2 <;> simp_all
  · simp [happ]

theorem check_calendar_auth_by_id_ok_iff (db : DB) (teamId : Nat)
    (req : Request) (challenger : String) (hu : req.ctx.user = some challenger) :
    (check_calendar_auth_by_id db teamId req).1 = .ok () ↔
      (req.ctx.app.isSome = true ∨
        team_member_rowcount_by_id db teamId challenger ≠ 0 ∨
        is_god db challenger = true) := by
  unfold check_calendar_auth_by_id
  cases happ : req.ctx.app.isSome
  · simp only [happ, Bool.false_eq_true, if_false, hu]
    split_ifs with h1 h2 <;> simp_all
  · simp [happ]

/-- C4: a god caller passes every one of the four checks whatever the
membership data, and the god override is a pure disjunct: whenever the
specific condition of a check passes, the check passes, with no god
condition consulted at all. -/
theorem god_override_and_monotonicity
    (db : DB) (req : Request) (challenger user team : String) (teamId : Nat)
    (hu : req.ctx.user = some challenger) :
    (is_god db challenger = true →
      (check_user_auth db user req).1 = .ok () ∧
      (check_team_auth db team req).1 = .ok () ∧
      (check_calendar_auth db team req none).1 = .ok () ∧
      (check_calendar_auth db team req (some challenger)).1 = .ok () ∧
      (check_calendar_auth_by_id db teamId req).1 = .ok ()) ∧
    (user_auth_allowed db challenger user = true →
      (check_user_auth db user req).1 = .ok ()) ∧
    (team_admin_allowed db challenger team = true →
      (check_team_auth db team req).1 = .ok ()) ∧
    (team_member_rowcount db team challenger ≠ 0 →
      (check_calendar_auth db team req none).1 = .ok ()) ∧
    (team_member_rowcount_by_id db teamId challenger ≠ 0 →
      (check_calendar_auth_by_id db teamId req).1 = .ok ()) := by
  have hcnone : (match (none : Option String) with
      | some u => some u | none => req.ctx.user) = some challenger := hu
  have hcsome : (match (some challenger : Option String) with
      | some u => some u | none => req.ctx.user) = some challenger := rfl
  refine ⟨fun hg => ⟨?_, ?_, ?_, ?_, ?_⟩, fun ha => ?_, fun ha => ?_,
    fun ha => ?_, fun ha => ?_⟩
  · exact (check_user_auth_ok_iff db user req challenger hu).2
      (Or.inr (Or.inr (Or.inr hg)))
  · exact (check_team_auth_ok_iff db team req challenger hu).2
      (Or.inr (Or.inr hg))
  · exact (check_calendar_auth_ok_iff db team req none challenger hcnone).2
      (Or.inr (Or.inr hg))
  · exact (check_calendar_auth_ok_iff db team req (some challenger) challenger hcsome).2
      (Or.inr (Or.inr hg))
  · exact (check_calendar_auth_by_id_ok_iff db teamId req challenger hu).2
      (Or.inr (Or.inr hg))
  · exact (check_user_auth_ok_iff db user req challenger hu).2
      (Or.inr (Or.inr (Or.inl ha)))
  · exact (check_team_auth_ok_iff db team req challenger hu).2
      (Or.inr (Or.inl ha))
  · exact (check_calendar_auth_ok_iff db team req none challenger hcnone).2
      (Or.inr (Or.inl ha))
  · exact (check_calendar_auth_by_id_ok_iff db teamId req challenger hu).2
      (Or.inr (Or.inl ha))

/-- Concrete request fixture carrying the god user gamma. -/
def toyReqGamma : Request :=
  { toyReq with ctx := { user := some "gamma", app := none, body := "" } }

/-- Concrete request fixture carrying the team admin bob. -/
def toyReqBob : Request :=
  { toyReq with ctx := { user := some "bob", app := none, body := "" } }

/-- Witness for C4: the god user gamma, a member of no team, passes all
four checks against the concrete database; the non-god admin bob passes
the user check for alice through the membership data alone. -/
theorem god_override_and_monotonicity_witness :
    toyReqGamma.ctx.user = some "gamma" ∧
    is_god toyDb "gamma" = true ∧
    is_god toyDb "bob" = false ∧
    (check_user_auth toyDb "alice" toyReqGamma).1 = .ok () ∧
    (check_team_auth toyDb "sre" toyReqGamma).1 = .ok () ∧
    (check_calendar_auth toyDb "sre" toyReqGamma none).1 = .ok () ∧
    (check_calendar_auth_by_id toyDb 1 toyReqGamma).1 = .ok () ∧
    (check_user_auth toyDb "alice" toyReqBob).1 = .ok () := by
  have hg := (god_override_and_monotonicity toyDb toyReqGamma "gamma" "alice" "sre" 1
    rfl).1 (by decide)
  have hb := (god_override_and_monotonicity toyDb toyReqBob "bob" "alice" "sre" 1
    rfl).2.1 (by decide)
  exact ⟨rfl, by decide, by decide, hg.1, hg.2.1, hg.2.2.1, hg.2.2.2.2, hb⟩

/-- Concrete database fixture whose only session row stores the empty
string as its csrf token. -/
def toyDbEmptyToken : DB :=
  { toyDb with sessions := [("sid1", "")] }

/-- Concrete request fixture with a logged in session and an empty
X-CSRF-TOKEN header. -/
def toyReqEmptyCsrf : Request :=
  { toyReq with session := ⟨some "alice", some "sid1"⟩, csrfHeader := some "" }

/-- Counterexample to C5 as stated: when the stored token is the empty
string, an empty X-CSRF-TOKEN header is accepted, not rejected, because
the comparison is plain equality. -/
theorem empty_token_empty_header_accepted :
    authenticate_user toyDbEmptyToken toyReqEmptyCsrf =
      .ok { user := some "alice", app := none, body := "" } ∧
    authenticate_user toyDbEmptyToken toyReqEmptyCsrf ≠
      .err (.unauthorized "Invalid Session" "CSRF validation failed" "") := by
  refine ⟨by decide, by decide⟩

/-- C5 (amended): session authentication fails as User must be logged in
when the session has no user; fails as CSRF token missing when the number
of stored rows for the session id is not exactly one; fails as CSRF
validation failed whenever the header differs from the stored token as a
Python value, which covers an absent header, any header differing in one
character, and an empty header against a nonempty token (an empty header
equals an empty stored token); on success the context user is set to the
session user. -/
theorem session_auth_outcomes
    (db : DB) (req : Request) (u sid token : String) :
    (req.session.user = none →
      authenticate_user db req =
        .err (.unauthorized "Unauthorized" "User must be logged in" "")) ∧
    (req.session.user = some u → req.session.sid = some sid →
      (db.sessions.filter (fun r => r.1 == sid)).length ≠ 1 →
      authenticate_user db req =
        .err (.unauthorized "Invalid Session" "CSRF token missing" "")) ∧
    (req.session.user = some u → req.session.sid = some sid →
      db.sessions.filter (fun r => r.1 == sid) = [(sid, token)] →
      req.csrfHeader ≠ some token →
      authenticate_user db req =
        .err (.unauthorized "Invalid Session" "CSRF validation failed" "")) ∧
    (req.session.user = some u → req.session.sid = some sid →
      db.sessions.filter (fun r => r.1 == sid) = [(sid, token)] →
      req.csrfHeader = some token →
      authenticate_user db req = .ok { req.ctx with user := some u }) := by
  refine ⟨?_, ?_, ?_, ?_⟩
  · intro h
    simp [authenticate_user, h]
  · intro h1 h2 h3
    simp [authenticate_user, h1, h2, h3]
  · intro h1 h2 h3 h4
    simp [authenticate_user, h1, h2, h3, h4]
  · intro h1 h2 h3 h4
    simp [authenticate_user, h1, h2, h3, h4]

/-- Concrete request fixtures for the session authentication witnesses. -/
def toyReqNoUser : Request :=
  { toyReq with session := ⟨none, none⟩ }

def toyReqNoRow : Request :=
  { toyReq with session := ⟨some "alice", some "ghost"⟩ }

def toyReqBadCsrf : Request :=
  { toyReq with session := ⟨some "alice", some "sid1"⟩, csrfHeader := some "tok2" }

def toyReqGoodCsrf : Request :=
  { toyReq with session := ⟨some "alice", some "sid1"⟩, csrfHeader := some "tok1" }

/-- Witness for C5 at concrete sessions: no user, no stored row, a header
one character away from the stored token tok1, and the matching header. -/
theorem session_auth_outcomes_witness :
    authenticate_user toyDb toyReqNoUser =
      .err (.unauthorized "Unauthorized" "User must be logged in" "") ∧
    authenticate_user toyDb toyReqNoRow =
      .err (.unauthorized "Invalid Session" "CSRF token missing" "") ∧
    authenticate_user toyDb toyReqBadCsrf =
      .err (.unauthorized "Invalid Session" "CSRF validation failed" "") ∧
    authenticate_user toyDb toyReqGoodCsrf =
      .ok { toyReqGoodCsrf.ctx with user := some "alice" } := by
  refine ⟨?_, ?_, ?_, ?_⟩
  · exact (session_auth_outcomes toyDb toyReqNoUser "" "" "").1 rfl
  · exact (session_auth_outcomes toyDb toyReqNoRow "alice" "ghost" "").2.1
      rfl rfl (by decide)
  · exact (session_auth_outcomes toyDb toyReqBadCsrf "alice" "sid1" "tok1").2.2.1
      rfl rfl (by decide) (by decide)
  · exact (session_auth_outcomes toyDb toyReqGoodCsrf "alice" "sid1" "tok1").2.2.2
      rfl rfl (by decide) rfl

/-- Concrete request fixture whose session yields a user but no _id key. -/
def toyReqNoSid : Request :=
  { toyReq with session := ⟨some "alice", none⟩ }

/-- C10: a session with a user but no _id key fails with the same User
must be logged in error as a session with no user, not with either CSRF
error; the two KeyError sites while reading the session (the user key and
the _id key) both land in this one error. -/
theorem missing_session_id_logged_in_error
    (db : DB) (req : Request) (u : String) :
    (req.session.user = some u → req.session.sid = none →
      authenticate_user db req =
        .err (.unauthorized "Unauthorized" "User must be logged in" "")) ∧
    (req.session.user = none →
      authenticate_user db req =
        .err (.unauthorized "Unauthorized" "User must be logged in" "")) := by
  constructor
  · intro h1 h2
    simp [authenticate_user, h1, h2]
  · intro h
    simp [authenticate_user, h]

/-- Witness for C10: a session carrying the user alice but no _id fails
exactly as the session with no user does. -/
theorem missing_session_id_logged_in_error_witness :
    toyReqNoSid.session.user = some "alice" ∧
    toyReqNoSid.session.sid = none ∧
    authenticate_user toyDb toyReqNoSid =
      .err (.unauthorized "Unauthorized" "User must be logged in" "") ∧
    authenticate_user toyDb toyReqNoUser =
      .err (.unauthorized "Unauthorized" "User must be logged in" "") := by
  have h := missing_session_id_logged_in_error toyDb toyReqNoSid "alice"
  have h2 := missing_session_id_logged_in_error toyDb toyReqNoUser "alice"
  exact ⟨rfl, rfl, h.1 rfl rfl, h2.2 rfl⟩

theorem resShape_digest_check (hmacB64 : String → String → String)
    (cd key : String) (now1 now2 : Nat) (m p b a : String)
    (ctx1 ctx2 : ReqCtx) (hw : now1 / 5 = now2 / 5) :
    resShape (digest_check hmacB64 cd key now1 m p b a ctx1) =
      resShape (digest_check hmacB64 cd key now2 m p b a ctx2) := by
  simp only [digest_check, hw]
  split_ifs <;> rfl

theorem resolve_and_check_shape (hmacB64 : String → String → String) (db : DB)
    (cache : Cache) (now1 now2 : Nat) (an cd : String) (req1 req2 : Request)
    (hm : req1.method = req2.method) (hp : canonicalPath req1 = canonicalPath req2)
    (hb : req1.ctx.body = req2.ctx.body) (hw : now1 / 5 = now2 / 5) :
    resShape (resolve_and_check hmacB64 db cache now1 an cd req1).result =
      resShape (resolve_and_check hmacB64 db cache now2 an cd req2).result ∧
    (resolve_and_check hmacB64 db cache now1 an cd req1).cache =
      (resolve_and_check hmacB64 db cache now2 an cd req2).cache ∧
    (resolve_and_check hmacB64 db cache now1 an cd req1).appLookups =
      (resolve_and_check hmacB64 db cache now2 an cd req2).appLookups := by
  unfold resolve_and_check
  cases hca : cache.lookup an with
  | some key =>
    refine ⟨?_, rfl, rfl⟩
    rw [hm, hp, hb]
    exact resShape_digest_check hmacB64 cd key now1 now2 req2.method
      (canonicalPath req2) req2.ctx.body an req1.ctx req2.ctx hw
  | none =>
    cases hdb : app_key_query db an with
    | some key =>
      refine ⟨?_, rfl, rfl⟩
      rw [hm, hp, hb]
      exact resShape_digest_check hmacB64 cd key now1 now2 req2.method
        (canonicalPath req2) req2.ctx.body an req1.ctx req2.ctx hw
    | none => exact ⟨rfl, rfl, rfl⟩

/-- C6: the digest input text is exactly the window, the method, the
canonical path and the body joined by single spaces; the canonical path is
the path with a question mark and the query string appended exactly when
the query string is nonempty; and verification depends on nothing else
about the request: the same token checked against two requests that agree
on method, canonical path and body, at times falling in the same window,
produces the same outcome, the same cache and the same number of
application-table queries. -/
theorem digest_text_and_dependence
    (hmacB64 : String → String → String) (db : DB) (cache : Cache)
    (now1 now2 : Nat) (token : String) (req1 req2 : Request)
    (window : Int) (dm dbody : String)
    (hm : req1.method = req2.method)
    (hp : canonicalPath req1 = canonicalPath req2)
    (hb : req1.ctx.body = req2.ctx.body)
    (hw : now1 / 5 = now2 / 5) :
    signText window dm (canonicalPath req1) dbody =
      spec_digest_text window dm (canonicalPath req1) dbody ∧
    canonicalPath req1 = spec_canonical_path req1.pathInfo req1.queryString ∧
    resShape (authenticate_application hmacB64 db cache now1 token req1).result =
      resShape (authenticate_application hmacB64 db cache now2 token req2).result ∧
    (authenticate_application hmacB64 db cache now1 token req1).cache =
      (authenticate_application hmacB64 db cache now2 token req2).cache ∧
    (authenticate_application hmacB64 db cache now1 token req1).appLookups =
      (authenticate_application hmacB64 db cache now2 token req2).appLookups := by
  have hcp : canonicalPath req1 = spec_canonical_path req1.pathInfo req1.queryString := by
    by_cases h : req1.queryString = "" <;>
      simp [canonicalPath, spec_canonical_path, h]
  have hmain :
      resShape (authenticate_application hmacB64 db cache now1 token req1).result =
        resShape (authenticate_application hmacB64 db cache now2 token req2).result ∧
      (authenticate_application hmacB64 db cache now1 token req1).cache =
        (authenticate_application hmacB64 db cache now2 token req2).cache ∧
      (authenticate_application hmacB64 db cache now1 token req1).appLookups =
        (authenticate_application hmacB64 db cache now2 token req2).appLookups := by
    cases hpre : (['h', 'm', 'a', 'c', ' '].isPrefixOf token.data) with
    | false =>
      simp [authenticate_application, hpre]
    | true =>
      simp only [authenticate_application, hpre, if_true]
      cases hsp : splitColon1 (token.data.drop 5) with
      | none => exact ⟨rfl, rfl, rfl⟩
      | some p =>
        exact resolve_and_check_shape hmacB64 db cache now1 now2
          (String.mk p.1) (String.mk p.2) req1 req2 hm hp hb hw
  exact ⟨rfl, hcp, hmain.1, hmain.2.1, hmain.2.2⟩

/-- Concrete fixture pair for C6: a query string moved from QUERY_STRING
into PATH_INFO, leaving the canonical path identical. -/
def toyReqQs1 : Request :=
  { toyReq with pathInfo := "/a", queryString := "x=1" }

def toyReqQs2 : Request :=
  { toyReq with pathInfo := "/a?x=1", queryString := "" }

/-- Witness for C6: the two fixture requests agree on the canonical path
/a?x=1 and behave identically under the same token at times 101 and 104,
both inside window 20. -/
theorem digest_text_and_dependence_witness :
    toyReqQs1.method = toyReqQs2.method ∧
    canonicalPath toyReqQs1 = canonicalPath toyReqQs2 ∧
    signText 7 "GET" (canonicalPath toyReqQs1) "" =
      spec_digest_text 7 "GET" (canonicalPath toyReqQs1) "" ∧
    canonicalPath toyReqQs1 = spec_canonical_path toyReqQs1.pathInfo toyReqQs1.queryString ∧
    resShape (authenticate_application toyHmac toyDb [] 101 "hmac svc:zzz" toyReqQs1).result =
      resShape (authenticate_application toyHmac toyDb [] 104 "hmac svc:zzz" toyReqQs2).result := by
  have h := digest_text_and_dependence toyHmac toyDb [] 101 104 "hmac svc:zzz"
    toyReqQs1 toyReqQs2 7 "GET" "" (by decide) (by decide) (by decide) (by decide)
  exact ⟨by decide, by decide, h.1, h.2.1, h.2.2.1⟩

/-- C7: on a key-cache miss authenticate_application runs exactly one
application-table query; when the application exists its key is appended
to the cache, after which a verification for the same application runs
zero queries; when it does not exist the call fails as Application not
found and returns the cache unchanged, so no negative entry is stored. -/
theorem cache_miss_behavior
    (hmacB64 : String → String → String) (db : DB) (cache : Cache)
    (now now2 : Nat) (appName cd cd2 key : String) (req req2 : Request)
    (hname : ':' ∉ appName.data)
    (hmiss : cache.lookup appName = none) :
    (app_key_query db appName = some key →
      (authenticate_application hmacB64 db cache now
        ("hmac " ++ (appName ++ ":" ++ cd)) req).appLookups = 1 ∧
      (authenticate_application hmacB64 db cache now
        ("hmac " ++ (appName ++ ":" ++ cd)) req).cache = (appName, key) :: cache ∧
      (authenticate_application hmacB64 db ((appName, key) :: cache) now2
        ("hmac " ++ (appName ++ ":" ++ cd2)) req2).appLookups = 0) ∧
    (app_key_query db appName = none →
      (authenticate_application hmacB64 db cache now
        ("hmac " ++ (appName ++ ":" ++ cd)) req).result =
        .err (.unauthorized "Authentication failure" "Application not found" "") ∧
      (authenticate_application hmacB64 db cache now
        ("hmac " ++ (appName ++ ":" ++ cd)) req).cache = cache ∧
      (authenticate_application hmacB64 db cache now
        ("hmac " ++ (appName ++ ":" ++ cd)) req).appLookups = 1) := by
  constructor
  · intro hfound
    have hred := authenticate_application_wellformed hmacB64 db cache now appName cd req hname
    have hhit : ((appName, key) :: cache).lookup appName = some key := by
      simp [List.lookup]
    have hred2 := authenticate_application_wellformed hmacB64 db ((appName, key) :: cache)
      now2 appName cd2 req2 hname
    rw [hred, hred2]
    unfold resolve_and_check
    rw [hmiss, hfound, hhit]
    exact ⟨rfl, rfl, rfl⟩
  · intro hnone
    have hred := authenticate_application_wellformed hmacB64 db cache now appName cd req hname
    rw [hred]
    unfold resolve_and_check
    rw [hmiss, hnone]
    exact ⟨rfl, rfl, rfl⟩

/-- Witness for C7: against the concrete database, svc is found on a cold
cache (one query, key cached, zero queries afterwards) and ghost is not
(Application not found, cache unchanged). -/
theorem cache_miss_behavior_witness :
    app_key_query toyDb "svc" = some "K" ∧
    (authenticate_application toyHmac toyDb [] 100 "hmac svc:zzz" toyReq).appLookups = 1 ∧
    (authenticate_application toyHmac toyDb [] 100 "hmac svc:zzz" toyReq).cache =
      [("svc", "K")] ∧
    (authenticate_application toyHmac toyDb [("svc", "K")] 100 "hmac svc:yyy" toyReq).appLookups = 0 ∧
    (authenticate_application toyHmac toyDb [] 100 "hmac ghost:zzz" toyReq).result =
      .err (.unauthorized "Authentication failure" "Application not found" "") ∧
    (authenticate_application toyHmac toyDb [] 100 "hmac ghost:zzz" toyReq).cache = [] := by
  have hs := (cache_miss_behavior toyHmac toyDb [] 100 100 "svc" "zzz" "yyy" "K"
    toyReq toyReq (by decide) (by decide)).1 (by decide)
  have hg := (cache_miss_behavior toyHmac toyDb [] 100 100 "ghost" "zzz" "yyy" ""
    toyReq toyReq (by decide) (by decide)).2 (by decide)
  exact ⟨by decide, hs.1, hs.2.1, hs.2.2, hg.1, hg.2.1⟩

/-- Concrete fixtures for C9: an empty and a nonempty AUTHORIZATION
header. -/
def toyReqEmptyAuth : Request :=
  { toyReq with authHeader := some "" }

def toyReqHmacAuth : Request :=
  { toyReq with authHeader := some "hmac svc:zzz" }

/-- C9: a present but empty AUTHORIZATION header is falsy in Python, so
login_required routes the request to session authentication exactly as an
absent header does; only a present nonempty header reaches
authenticate_application. -/
theorem empty_auth_header_routes_to_session
    (hmacB64 : String → String → String) (db : DB) (cache : Cache)
    (now : Nat) (req : Request) (tok : String) :
    (req.authHeader = some "" →
      login_required hmacB64 db cache now req =
        { result := authenticate_user db req, cache := cache, appLookups := 0 }) ∧
    (req.authHeader = none →
      login_required hmacB64 db cache now req =
        { result := authenticate_user db req, cache := cache, appLookups := 0 }) ∧
    (req.authHeader = some tok → tok ≠ "" →
      login_required hmacB64 db cache now req =
        authenticate_application hmacB64 db cache now tok req) := by
  refine ⟨?_, ?_, ?_⟩
  · intro h
    simp [login_required, h]
  · intro h
    simp [login_required, h]
  · intro h hne
    simp [login_required, h, hne]

/-- Witness for C9: with the empty header the request goes to session
authentication (same outcome as the absent header); with the nonempty
header it goes to digest authentication. -/
theorem empty_auth_header_routes_to_session_witness :
    toyReqEmptyAuth.authHeader = some "" ∧
    login_required toyHmac toyDb [] 100 toyReqEmptyAuth =
      { result := authenticate_user toyDb toyReqEmptyAuth, cache := [], appLookups := 0 } ∧
    login_required toyHmac toyDb [] 100 toyReq =
      { result := authenticate_user toyDb toyReq, cache := [], appLookups := 0 } ∧
    login_required toyHmac toyDb [] 100 toyReqHmacAuth =
      authenticate_application toyHmac toyDb [] 100 "hmac svc:zzz" toyReqHmacAuth := by
  refine ⟨rfl, ?_, ?_, ?_⟩
  · exact (empty_auth_header_routes_to_session toyHmac toyDb [] 100
      toyReqEmptyAuth "").1 rfl
  · exact (empty_auth_header_routes_to_session toyHmac toyDb [] 100
      toyReq "").2.1 rfl
  · exact (empty_auth_header_routes_to_session toyHmac toyDb [] 100
      toyReqHmacAuth "hmac svc:zzz").2.2 rfl (by decide)

end Oncall
